import Mathlib

/-!
Verification of the authenticated-request / token-refresh pipeline of the
Buzz-cart storefront client (`apiClient` module).

The pipeline is embedded shallowly:

* `LocalStorage` models the browser's `localStorage` as an association list
  of string keys to string values, with `getItem` / `setItem` / `removeItem`.
* `tokenStore` is the token store object built over it (keys `"access"` and
  `"refresh"`); a setter receives a JS value (`null` or a string) and removes
  the key when the value is falsy.
* `attachAuth` is the request interceptor: it attaches
  `Authorization: Bearer <access>` when an access token is present.
* The response-error interceptor together with the refresh-promise
  continuation is embedded as a step function on a global state `GState`
  (token storage, `isRefreshing` flag, `refreshPromise` nullability, the
  `subscribers` array, and the reject handlers attached to the current
  refresh promise).  Each event (a request failing with some status, or the
  in-flight refresh call settling) runs atomically, matching the
  single-threaded event-loop execution of the source.  Steps emit a list of
  observable `Action`s: refresh network calls issued, requests replayed, and
  caller rejections.
-/

namespace BuzzCart

/-! ## localStorage model -/

abbrev LocalStorage := List (String × String)

def getItem (ls : LocalStorage) (k : String) : Option String :=
  (ls.find? (fun p => p.1 = k)).map (fun p => p.2)

def setItem : LocalStorage → String → String → LocalStorage
  | [], k, v => [(k, v)]
  | (k', v') :: rest, k, v =>
      if k' = k then (k, v) :: rest else (k', v') :: setItem rest k v

def removeItem (ls : LocalStorage) (k : String) : LocalStorage :=
  ls.filter (fun p => p.1 ≠ k)

/-- A JavaScript value handed to a token-store setter: `null` or a string. -/
inductive JSVal where
  | null : JSVal
  | str : String → JSVal
deriving DecidableEq, Repr

/-- JS truthiness for a setter argument: `null` and `""` are falsy. -/
def JSVal.truthy : JSVal → Bool
  | .null => false
  | .str s => !(s = "")

/-- JS truthiness of a `localStorage.getItem` result (`null` or `""` falsy). -/
def strTruthy : Option String → Bool
  | none => false
  | some s => !(s = "")

/-! ## tokenStore -/

namespace tokenStore

def getAccess (ls : LocalStorage) : Option String := getItem ls "access"

def getRefresh (ls : LocalStorage) : Option String := getItem ls "refresh"

/-- Source: `set access(v) { if (v) setItem("access", v) else removeItem("access") }` -/
def setAccess (ls : LocalStorage) (v : JSVal) : LocalStorage :=
  if v.truthy then
    match v with
    | .str s => setItem ls "access" s
    | .null => ls
  else removeItem ls "access"

/-- Source: `set refresh(v) { if (v) setItem("refresh", v) else removeItem("refresh") }` -/
def setRefresh (ls : LocalStorage) (v : JSVal) : LocalStorage :=
  if v.truthy then
    match v with
    | .str s => setItem ls "refresh" s
    | .null => ls
  else removeItem ls "refresh"

/-- Source: `clear() { this.access = null; this.refresh = null; }` -/
def clear (ls : LocalStorage) : LocalStorage :=
  setRefresh (setAccess ls .null) .null

end tokenStore

/-! ## Request configs and headers -/

/-- Header maps are JS objects: string keys to string values.  The spread
`{ ...headers, Authorization: v }` overwrites the key, which `setHeader`
mirrors on the association list. -/
def setHeader : List (String × String) → String → String → List (String × String)
  | [], k, v => [(k, v)]
  | (k', v') :: rest, k, v =>
      if k' = k then (k, v) :: rest else (k', v') :: setHeader rest k v

def getHeader (hs : List (String × String)) (k : String) : Option String :=
  (hs.find? (fun p => p.1 = k)).map (fun p => p.2)

/-- An axios request config, as far as the pipeline observes it: its header
object and the `__isRetryRequest` marker (absent = `false`).  `id` tracks the
identity of the caller's original request. -/
structure Config where
  id : Nat
  headers : List (String × String)
  isRetry : Bool
deriving DecidableEq, Repr

/-- The request interceptor: `const token = tokenStore.access;
if (token) config.headers.Authorization = `Bearer ${token}`;` -/
def attachAuth (ls : LocalStorage) (cfg : Config) : Config :=
  match tokenStore.getAccess ls with
  | some t =>
      if t = "" then cfg
      else { cfg with headers := setHeader cfg.headers "Authorization" ("Bearer " ++ t) }
  | none => cfg

/-! ## Pipeline state, events, actions -/

/-- Observable effects emitted by the pipeline. -/
inductive Action where
  /-- Source: `axios.post(API_BASE + "/api/auths/token/refresh/", { refresh }, ...)` -/
  | refreshCall : String → Action
  /-- Source: `resolve(api(original))` — the queued request is re-issued with the
  headers it carries at that moment. -/
  | replay : Config → Action
  /-- Source: `Promise.reject(error)` — the caller receives its original error. -/
  | rejectOriginal : Nat → Action
  /-- Source: `refreshPromise.catch(reject)` fired — the caller receives the refresh
  error. -/
  | rejectRefreshErr : Nat → Action
deriving DecidableEq, Repr

def Action.isRefreshCall : Action → Bool
  | .refreshCall _ => true
  | _ => false

def Action.isReplay : Action → Bool
  | .replay _ => true
  | _ => false

/-- Global mutable state of the module: the token storage, the
`isRefreshing` flag, whether `refreshPromise` is non-null, the `subscribers`
array (each entry is the config captured by the queued callback), and the
request ids whose `reject` was attached to the current refresh promise via
`refreshPromise.catch(reject)`. -/
structure GState where
  store : LocalStorage
  isRefreshing : Bool
  refreshActive : Bool
  subscribers : List Config
  attached : List Nat
deriving DecidableEq, Repr

/-- Events processed atomically by the event loop. -/
inductive Event where
  /-- A request with config `cfg` fails; `status` is `error?.response?.status`
  (`none` for a network error with no response). -/
  | respErr : Config → Option Nat → Event
  /-- The in-flight refresh network call settles.  `some body` is an HTTP
  success whose JSON body has `access` field `body` (`none` when the field is
  absent); the outer `none` is a rejected refresh call. -/
  | refreshResult : Option (Option String) → Event
deriving DecidableEq, Repr

/-- The response-error interceptor (lines 52–99 of the source), run to
completion: it returns synchronously after registering its subscriber, so one
call is one atomic step. -/
def handleRespErr (g : GState) (cfg : Config) (status : Option Nat) :
    GState × List Action :=
  if status = some 401 ∧ cfg.isRetry = false then
    let refresh := tokenStore.getRefresh g.store
    if strTruthy refresh = false then
      ({ g with store := tokenStore.clear g.store }, [.rejectOriginal cfg.id])
    else
      -- `if (!isRefreshing) { isRefreshing = true; original.__isRetryRequest = true; refreshPromise = ... }`
      let (g1, acts1, cfg1) :=
        if g.isRefreshing = false then
          ({ g with isRefreshing := true, refreshActive := true },
           [Action.refreshCall (refresh.getD "")],
           { cfg with isRetry := true })
        else (g, [], cfg)
      -- `addSubscriber((newAccess) => { original.headers = {...}; resolve(api(original)); })`
      let g2 := { g1 with subscribers := g1.subscribers ++ [cfg1] }
      -- `if (refreshPromise) refreshPromise.catch(reject);`
      let g3 :=
        if g2.refreshActive then { g2 with attached := g2.attached ++ [cfg1.id] }
        else g2
      (g3, acts1)
  else
    (g, [.rejectOriginal cfg.id])

/-- The headers a queued callback installs before replaying:
`original.headers = { ...(original.headers || {}), Authorization: `Bearer ${newAccess}` }`. -/
def replayConfig (cfg : Config) (newAccess : String) : Config :=
  { cfg with headers := setHeader cfg.headers "Authorization" ("Bearer " ++ newAccess) }

/-- The refresh-promise continuation (lines 69–85): `.then` stores the new
access token and runs `onRefreshed` (which notifies every subscriber in order
and empties the array); `.then`'s throw on a missing/falsy `access` field and
`.catch` clear the token store and reject every attached caller; `.finally`
resets `isRefreshing` and `refreshPromise`.  The `.catch` path does not touch
`subscribers`. -/
def handleRefreshResult (g : GState) (res : Option (Option String)) :
    GState × List Action :=
  if g.isRefreshing = false then (g, [])
  else
    match res with
    | some body =>
        match body with
        | some newAccess =>
            if newAccess = "" then
              -- falsy access field: `throw new Error(...)` → `.catch`
              ({ g with store := tokenStore.clear g.store,
                        isRefreshing := false, refreshActive := false,
                        attached := [] },
               g.attached.map Action.rejectRefreshErr)
            else
              ({ g with store := tokenStore.setAccess g.store (.str newAccess),
                        subscribers := [],
                        isRefreshing := false, refreshActive := false,
                        attached := [] },
               g.subscribers.map (fun c => Action.replay (replayConfig c newAccess)))
        | none =>
            ({ g with store := tokenStore.clear g.store,
                      isRefreshing := false, refreshActive := false,
                      attached := [] },
             g.attached.map Action.rejectRefreshErr)
    | none =>
        ({ g with store := tokenStore.clear g.store,
                  isRefreshing := false, refreshActive := false,
                  attached := [] },
         g.attached.map Action.rejectRefreshErr)

def step (g : GState) : Event → GState × List Action
  | .respErr cfg status => handleRespErr g cfg status
  | .refreshResult res => handleRefreshResult g res

def run (g : GState) : List Event → GState × List Action
  | [] => (g, [])
  | e :: es =>
      let (g1, as1) := step g e
      let (g2, as2) := run g1 es
      (g2, as1 ++ as2)

/-! ## Storage lemmas -/

theorem getItem_nil (k : String) : getItem ([] : LocalStorage) k = none := rfl

theorem getItem_cons (k₀ v₀ : String) (rest : LocalStorage) (k : String) :
    getItem ((k₀, v₀) :: rest) k = if k₀ = k then some v₀ else getItem rest k := by
  by_cases h : k₀ = k <;> simp [getItem, h]

theorem removeItem_cons (k₀ v₀ : String) (rest : LocalStorage) (k : String) :
    removeItem ((k₀, v₀) :: rest) k =
      if k₀ = k then removeItem rest k else (k₀, v₀) :: removeItem rest k := by
  by_cases h : k₀ = k <;> simp [removeItem, h]

theorem getItem_setItem_self (ls : LocalStorage) (k v : String) :
    getItem (setItem ls k v) k = some v := by
  induction ls with
  | nil => simp [setItem, getItem_cons]
  | cons p rest ih =>
    obtain ⟨k', v'⟩ := p
    by_cases h : k' = k
    · simp [setItem, h, getItem_cons]
    · simp [setItem, h, getItem_cons, ih]

theorem getItem_setItem_ne (ls : LocalStorage) (k k' v : String) (h : k' ≠ k) :
    getItem (setItem ls k v) k' = getItem ls k' := by
  induction ls with
  | nil => simp [setItem, getItem_cons, getItem_nil, Ne.symm h]
  | cons p rest ih =>
    obtain ⟨k₀, v₀⟩ := p
    by_cases h0 : k₀ = k
    · subst h0
      simp [setItem, getItem_cons, Ne.symm h]
    · simp [setItem, h0, getItem_cons, ih]

theorem getItem_removeItem_self (ls : LocalStorage) (k : String) :
    getItem (removeItem ls k) k = none := by
  induction ls with
  | nil => simp [removeItem, getItem_nil]
  | cons p rest ih =>
    obtain ⟨k', v'⟩ := p
    by_cases h : k' = k
    · simp [removeItem_cons, h, ih]
    · simp [removeItem_cons, h, getItem_cons, ih]

theorem getItem_removeItem_ne (ls : LocalStorage) (k k' : String) (h : k' ≠ k) :
    getItem (removeItem ls k) k' = getItem ls k' := by
  induction ls with
  | nil => simp [removeItem]
  | cons p rest ih =>
    obtain ⟨k₀, v₀⟩ := p
    by_cases h0 : k₀ = k
    · subst h0
      simp [removeItem_cons, getItem_cons, Ne.symm h, ih]
    · simp [removeItem_cons, h0, getItem_cons, ih]

theorem getAccess_clear (ls : LocalStorage) :
    tokenStore.getAccess (tokenStore.clear ls) = none := by
  show getItem (removeItem (removeItem ls "access") "refresh") "access" = none
  rw [getItem_removeItem_ne _ _ _ (by decide)]
  exact getItem_removeItem_self _ _

theorem getRefresh_clear (ls : LocalStorage) :
    tokenStore.getRefresh (tokenStore.clear ls) = none := by
  exact getItem_removeItem_self _ _

theorem getHeader_cons (k₀ v₀ : String) (rest : List (String × String)) (k : String) :
    getHeader ((k₀, v₀) :: rest) k = if k₀ = k then some v₀ else getHeader rest k := by
  by_cases h : k₀ = k <;> simp [getHeader, h]

theorem getHeader_setHeader_self (hs : List (String × String)) (k v : String) :
    getHeader (setHeader hs k v) k = some v := by
  induction hs with
  | nil => simp [setHeader, getHeader_cons]
  | cons p rest ih =>
    obtain ⟨k', v'⟩ := p
    by_cases h : k' = k
    · simp [setHeader, h, getHeader_cons]
    · simp [setHeader, h, getHeader_cons, ih]

/-! ## Step characterization lemmas -/

/-- A 401 on an unretried request while a refresh is in flight: no action is
emitted (in particular no refresh call) and the request is appended to the
subscriber queue; the storage is untouched and the cycle stays in flight. -/
theorem handleRespErr_inflight (g : GState) (cfg : Config) (r : String)
    (hin : g.isRefreshing = true) (hc : cfg.isRetry = false)
    (hr : tokenStore.getRefresh g.store = some r) (hrne : r ≠ "") :
    (handleRespErr g cfg (some 401)).2 = [] ∧
    (handleRespErr g cfg (some 401)).1.store = g.store ∧
    (handleRespErr g cfg (some 401)).1.isRefreshing = true ∧
    (handleRespErr g cfg (some 401)).1.subscribers = g.subscribers ++ [cfg] := by
  by_cases ha : g.refreshActive <;>
    simp [handleRespErr, hc, hr, strTruthy, hrne, hin, ha]

/-- A 401 on an unretried request while idle, with a refresh token in store:
one refresh call is issued, the request is marked retried and queued, and its
reject handler is attached to the new promise. -/
theorem handleRespErr_idle (g : GState) (cfg : Config) (r : String)
    (hidle : g.isRefreshing = false) (hc : cfg.isRetry = false)
    (hr : tokenStore.getRefresh g.store = some r) (hrne : r ≠ "") :
    handleRespErr g cfg (some 401) =
      ({ g with isRefreshing := true, refreshActive := true,
                subscribers := g.subscribers ++ [{ cfg with isRetry := true }],
                attached := g.attached ++ [cfg.id] },
       [Action.refreshCall r]) := by
  simp [handleRespErr, hc, hr, strTruthy, hrne, hidle]

/-- The refresh promise resolves with a truthy `access` field. -/
theorem handleRefreshResult_ok (g : GState) (a : String)
    (hin : g.isRefreshing = true) (ha : a ≠ "") :
    handleRefreshResult g (some (some a)) =
      ({ g with store := tokenStore.setAccess g.store (.str a),
                subscribers := [], isRefreshing := false, refreshActive := false,
                attached := [] },
       g.subscribers.map (fun c => Action.replay (replayConfig c a))) := by
  simp [handleRefreshResult, hin, ha]

/-- The refresh promise rejects, or resolves without a truthy `access`
field: the token store is cleared, every attached caller is rejected with the
refresh error, the cycle returns to idle — and `subscribers` is untouched. -/
theorem handleRefreshResult_fail (g : GState) (res : Option (Option String))
    (hin : g.isRefreshing = true)
    (hfail : res = none ∨ res = some none ∨ res = some (some "")) :
    handleRefreshResult g res =
      ({ g with store := tokenStore.clear g.store,
                isRefreshing := false, refreshActive := false, attached := [] },
       g.attached.map Action.rejectRefreshErr) := by
  rcases hfail with h | h | h <;> subst h <;> simp [handleRefreshResult, hin]

/-- Running any number of 401s on unretried requests while a refresh is in
flight: no actions at all, storage untouched, still in flight, and all the
requests appended to the queue in order. -/
theorem run_401s_inflight (cfgs : List Config) (g : GState) (r : String)
    (hin : g.isRefreshing = true)
    (hr : tokenStore.getRefresh g.store = some r) (hrne : r ≠ "")
    (hcf : ∀ c ∈ cfgs, c.isRetry = false) :
    (run g (cfgs.map (fun c => Event.respErr c (some 401)))).2 = [] ∧
    (run g (cfgs.map (fun c => Event.respErr c (some 401)))).1.store = g.store ∧
    (run g (cfgs.map (fun c => Event.respErr c (some 401)))).1.isRefreshing = true ∧
    (run g (cfgs.map (fun c => Event.respErr c (some 401)))).1.subscribers =
      g.subscribers ++ cfgs := by
  induction cfgs generalizing g with
  | nil => simp [run, hin]
  | cons c cs ih =>
    obtain ⟨h1, h2, h3, h4⟩ :=
      handleRespErr_inflight g c r hin (hcf c (by simp)) hr hrne
    have hr1 : tokenStore.getRefresh (handleRespErr g c (some 401)).1.store = some r := by
      rw [h2]; exact hr
    obtain ⟨ih1, ih2, ih3, ih4⟩ :=
      ih (handleRespErr g c (some 401)).1 h3 hr1
        (fun c' hc' => hcf c' (by simp [hc']))
    refine ⟨?_, ?_, ?_, ?_⟩ <;>
      simp [run, step, h1, h2, h3, h4, ih1, ih2, ih3, ih4]

/-! ## Claim theorems -/

/-- Claim C1: at most one refresh network call is in flight at any time.
For any batch of requests that each receive a 401 while no refresh is in
flight (none of them marked retried, a refresh token in store), the emitted
actions are exactly one refresh call — so exactly one refresh call is issued
— and every further request that 401s while that refresh is in flight is
appended to the subscriber queue instead of starting a second refresh call. -/
theorem single_flight_refresh (g : GState) (c0 : Config) (rest : List Config) (r : String)
    (hidle : g.isRefreshing = false)
    (hr : tokenStore.getRefresh g.store = some r) (hrne : r ≠ "")
    (hc0 : c0.isRetry = false) (hrest : ∀ c ∈ rest, c.isRetry = false) :
    (run g ((c0 :: rest).map (fun c => Event.respErr c (some 401)))).2 =
      [Action.refreshCall r] ∧
    ((run g ((c0 :: rest).map (fun c => Event.respErr c (some 401)))).2).countP
      Action.isRefreshCall = 1 ∧
    (run g ((c0 :: rest).map (fun c => Event.respErr c (some 401)))).1.subscribers =
      g.subscribers ++ ({ c0 with isRetry := true } :: rest) ∧
    (run g ((c0 :: rest).map (fun c => Event.respErr c (some 401)))).1.isRefreshing =
      true := by
  have h0 := handleRespErr_idle g c0 r hidle hc0 hr hrne
  obtain ⟨ih1, ih2, ih3, ih4⟩ :=
    run_401s_inflight rest
      { g with isRefreshing := true, refreshActive := true,
               subscribers := g.subscribers ++ [{ c0 with isRetry := true }],
               attached := g.attached ++ [c0.id] }
      r rfl hr hrne hrest
  refine ⟨?_, ?_, ?_, ?_⟩ <;>
    simp [run, step, h0, ih1, ih3, ih4, Action.isRefreshCall]

/-- Witness for C1: three parallel 401s on a fresh session issue exactly one
refresh call and queue all three requests. -/
theorem single_flight_refresh_witness :
    (run ⟨[("access", "A1"), ("refresh", "R1")], false, false, [], []⟩
        ((⟨1, [], false⟩ :: [⟨2, [], false⟩, ⟨3, [], false⟩]).map
          (fun c => Event.respErr c (some 401)))).2 = [Action.refreshCall "R1"] ∧
    ((run ⟨[("access", "A1"), ("refresh", "R1")], false, false, [], []⟩
        ((⟨1, [], false⟩ :: [⟨2, [], false⟩, ⟨3, [], false⟩]).map
          (fun c => Event.respErr c (some 401)))).2).countP Action.isRefreshCall = 1 ∧
    (run ⟨[("access", "A1"), ("refresh", "R1")], false, false, [], []⟩
        ((⟨1, [], false⟩ :: [⟨2, [], false⟩, ⟨3, [], false⟩]).map
          (fun c => Event.respErr c (some 401)))).1.subscribers =
      [] ++ (⟨1, [], true⟩ :: [⟨2, [], false⟩, ⟨3, [], false⟩]) ∧
    (run ⟨[("access", "A1"), ("refresh", "R1")], false, false, [], []⟩
        ((⟨1, [], false⟩ :: [⟨2, [], false⟩, ⟨3, [], false⟩]).map
          (fun c => Event.respErr c (some 401)))).1.isRefreshing = true :=
  single_flight_refresh ⟨[("access", "A1"), ("refresh", "R1")], false, false, [], []⟩
    ⟨1, [], false⟩ [⟨2, [], false⟩, ⟨3, [], false⟩] "R1"
    rfl (by decide) (by decide) rfl (by decide)

/-- Claim C5: a 401 on an unretried request while the store holds no refresh
token clears the token store, rejects the caller with its original error, and
emits no refresh call and no replay. -/
theorem no_refresh_token_path (g : GState) (cfg : Config)
    (hc : cfg.isRetry = false)
    (hr : strTruthy (tokenStore.getRefresh g.store) = false) :
    handleRespErr g cfg (some 401) =
      ({ g with store := tokenStore.clear g.store }, [Action.rejectOriginal cfg.id]) ∧
    tokenStore.getAccess (handleRespErr g cfg (some 401)).1.store = none ∧
    tokenStore.getRefresh (handleRespErr g cfg (some 401)).1.store = none := by
  have h : handleRespErr g cfg (some 401) =
      ({ g with store := tokenStore.clear g.store }, [Action.rejectOriginal cfg.id]) := by
    simp [handleRespErr, hc, hr]
  refine ⟨h, ?_, ?_⟩ <;> rw [h]
  · exact getAccess_clear g.store
  · exact getRefresh_clear g.store

/-- Witness for C5: a 401 with an access token but no refresh token in
store. -/
theorem no_refresh_token_path_witness :
    handleRespErr ⟨[("access", "A1")], false, false, [], []⟩ ⟨7, [], false⟩ (some 401) =
      ({ store := tokenStore.clear [("access", "A1")], isRefreshing := false,
         refreshActive := false, subscribers := [], attached := [] },
       [Action.rejectOriginal 7]) ∧
    tokenStore.getAccess
      (handleRespErr ⟨[("access", "A1")], false, false, [], []⟩
        ⟨7, [], false⟩ (some 401)).1.store = none ∧
    tokenStore.getRefresh
      (handleRespErr ⟨[("access", "A1")], false, false, [], []⟩
        ⟨7, [], false⟩ (some 401)).1.store = none :=
  no_refresh_token_path ⟨[("access", "A1")], false, false, [], []⟩ ⟨7, [], false⟩
    rfl (by decide)

/-- Claim C7: the request interceptor attaches `Authorization: Bearer <t>`
with exactly the stored access token when one is present, and leaves the
config unchanged (no Authorization header added) when none is present. -/
theorem attach_auth_header (ls : LocalStorage) (cfg : Config) :
    (∀ t, tokenStore.getAccess ls = some t → t ≠ "" →
      attachAuth ls cfg =
        { cfg with headers := setHeader cfg.headers "Authorization" ("Bearer " ++ t) } ∧
      getHeader (attachAuth ls cfg).headers "Authorization" = some ("Bearer " ++ t)) ∧
    (strTruthy (tokenStore.getAccess ls) = false → attachAuth ls cfg = cfg) := by
  constructor
  · intro t ht htne
    have h : attachAuth ls cfg =
        { cfg with headers := setHeader cfg.headers "Authorization" ("Bearer " ++ t) } := by
      simp [attachAuth, ht, htne]
    refine ⟨h, ?_⟩
    rw [h]
    exact getHeader_setHeader_self cfg.headers "Authorization" ("Bearer " ++ t)
  · intro h
    cases hac : tokenStore.getAccess ls with
    | none => simp [attachAuth, hac]
    | some t =>
        have ht : t = "" := by simpa [strTruthy, hac] using h
        simp [attachAuth, hac, ht]

/-- Witness for C7: a stored access token is attached verbatim; an empty
store leaves the config alone. -/
theorem attach_auth_header_witness :
    attachAuth [("access", "A1")] ⟨1, [], false⟩ =
      { id := 1, headers := setHeader [] "Authorization" ("Bearer " ++ "A1"),
        isRetry := false } ∧
    attachAuth [] ⟨1, [], false⟩ = ⟨1, [], false⟩ :=
  ⟨((attach_auth_header [("access", "A1")] ⟨1, [], false⟩).1 "A1" (by decide) (by decide)).1,
   (attach_auth_header [] ⟨1, [], false⟩).2 rfl⟩

/-- Claim C10: token-store round trips.  Setting either token to a non-empty
string makes the corresponding read return it; setting it to `null` or any
falsy value removes the key so the read returns `none`; `clear` makes both
reads return `none` from any prior state. -/
theorem token_store_roundtrip (ls : LocalStorage) :
    (∀ t : String, t ≠ "" →
      tokenStore.getAccess (tokenStore.setAccess ls (.str t)) = some t ∧
      tokenStore.getRefresh (tokenStore.setRefresh ls (.str t)) = some t) ∧
    (∀ v : JSVal, v.truthy = false →
      tokenStore.getAccess (tokenStore.setAccess ls v) = none ∧
      tokenStore.getRefresh (tokenStore.setRefresh ls v) = none) ∧
    (tokenStore.getAccess (tokenStore.clear ls) = none ∧
     tokenStore.getRefresh (tokenStore.clear ls) = none) := by
  refine ⟨?_, ?_, getAccess_clear ls, getRefresh_clear ls⟩
  · intro t ht
    constructor
    · simp [tokenStore.setAccess, tokenStore.getAccess, JSVal.truthy, ht,
        getItem_setItem_self]
    · simp [tokenStore.setRefresh, tokenStore.getRefresh, JSVal.truthy, ht,
        getItem_setItem_self]
  · intro v hv
    constructor
    · simp [tokenStore.setAccess, hv, tokenStore.getAccess, getItem_removeItem_self]
    · simp [tokenStore.setRefresh, hv, tokenStore.getRefresh, getItem_removeItem_self]

/-- Witness for C10: a set/get round trip, a falsy write removing the key,
and a clear, on a concrete store. -/
theorem token_store_roundtrip_witness :
    tokenStore.getAccess (tokenStore.setAccess [("access", "old")] (.str "tok")) =
      some "tok" ∧
    tokenStore.getAccess (tokenStore.setAccess [("access", "old")] .null) = none ∧
    tokenStore.getRefresh (tokenStore.clear [("access", "a"), ("refresh", "b")]) = none :=
  ⟨((token_store_roundtrip [("access", "old")]).1 "tok" (by decide)).1,
   ((token_store_roundtrip [("access", "old")]).2.1 .null rfl).1,
   (token_store_roundtrip [("access", "a"), ("refresh", "b")]).2.2.2⟩

/-- Claim C4: after the refresh resolves with a new access token, the emitted
actions are exactly one replay per queued request, each carrying
`Authorization: Bearer <new token>` (so none carries the stale token), the
queue is emptied (so no second replay of a queued request), and the store now
serves the new token to the request interceptor. -/
theorem replay_with_new_token (g : GState) (a : String)
    (hin : g.isRefreshing = true) (ha : a ≠ "") :
    (handleRefreshResult g (some (some a))).2 =
      g.subscribers.map (fun c => Action.replay (replayConfig c a)) ∧
    (∀ c ∈ g.subscribers,
      getHeader (replayConfig c a).headers "Authorization" = some ("Bearer " ++ a)) ∧
    (handleRefreshResult g (some (some a))).1.subscribers = [] ∧
    tokenStore.getAccess (handleRefreshResult g (some (some a))).1.store = some a := by
  have h := handleRefreshResult_ok g a hin ha
  refine ⟨?_, ?_, ?_, ?_⟩
  · rw [h]
  · intro c _
    exact getHeader_setHeader_self c.headers "Authorization" ("Bearer " ++ a)
  · rw [h]
  · rw [h]
    simp [tokenStore.setAccess, tokenStore.getAccess, JSVal.truthy, ha,
      getItem_setItem_self]

/-- Witness for C4: two queued requests replayed with the fresh token. -/
theorem replay_with_new_token_witness :
    (handleRefreshResult
        ⟨[("access", "A1"), ("refresh", "R1")], true, true,
          [⟨1, [], true⟩, ⟨2, [], false⟩], [1, 2]⟩
        (some (some "A2"))).2 =
      [⟨1, [], true⟩, ⟨2, [], false⟩].map
        (fun c => Action.replay (replayConfig c "A2")) ∧
    (handleRefreshResult
        ⟨[("access", "A1"), ("refresh", "R1")], true, true,
          [⟨1, [], true⟩, ⟨2, [], false⟩], [1, 2]⟩
        (some (some "A2"))).1.subscribers = [] :=
  ⟨(replay_with_new_token
      ⟨[("access", "A1"), ("refresh", "R1")], true, true,
        [⟨1, [], true⟩, ⟨2, [], false⟩], [1, 2]⟩
      "A2" rfl (by decide)).1,
   (replay_with_new_token
      ⟨[("access", "A1"), ("refresh", "R1")], true, true,
        [⟨1, [], true⟩, ⟨2, [], false⟩], [1, 2]⟩
      "A2" rfl (by decide)).2.2.1⟩

/-- Claim C6: a successful refresh mutates only the access token — the
refresh token read is unchanged — and every replay emitted by the cycle
carries `Authorization: Bearer <new token>`. -/
theorem refresh_preserves_refresh_token (g : GState) (a : String)
    (hin : g.isRefreshing = true) (ha : a ≠ "") :
    tokenStore.getAccess (handleRefreshResult g (some (some a))).1.store = some a ∧
    tokenStore.getRefresh (handleRefreshResult g (some (some a))).1.store =
      tokenStore.getRefresh g.store ∧
    ∀ c : Config, Action.replay c ∈ (handleRefreshResult g (some (some a))).2 →
      getHeader c.headers "Authorization" = some ("Bearer " ++ a) := by
  have h := handleRefreshResult_ok g a hin ha
  refine ⟨?_, ?_, ?_⟩
  · rw [h]
    simp [tokenStore.setAccess, tokenStore.getAccess, JSVal.truthy, ha,
      getItem_setItem_self]
  · rw [h]
    show tokenStore.getRefresh (tokenStore.setAccess g.store (.str a)) = _
    simp only [tokenStore.setAccess, tokenStore.getRefresh, JSVal.truthy, ha,
      Bool.not_eq_true']
    rw [if_pos (by simp [ha])]
    exact getItem_setItem_ne g.store "access" "refresh" a (by decide)
  · rw [h]
    intro c hc
    rw [List.mem_map] at hc
    obtain ⟨c', _, hc'⟩ := hc
    injection hc' with h2
    rw [← h2]
    exact getHeader_setHeader_self c'.headers "Authorization" ("Bearer " ++ a)

/-- Witness for C6: the spec scenario — store `{access A1, refresh R1}`,
three queued requests, refresh returns `A2`; afterwards the store reads
`{access A2, refresh R1}`. -/
theorem refresh_preserves_refresh_token_witness :
    tokenStore.getAccess
      (handleRefreshResult
        ⟨[("access", "A1"), ("refresh", "R1")], true, true,
          [⟨1, [], true⟩, ⟨2, [], false⟩, ⟨3, [], false⟩], [1, 2, 3]⟩
        (some (some "A2"))).1.store = some "A2" ∧
    tokenStore.getRefresh
      (handleRefreshResult
        ⟨[("access", "A1"), ("refresh", "R1")], true, true,
          [⟨1, [], true⟩, ⟨2, [], false⟩, ⟨3, [], false⟩], [1, 2, 3]⟩
        (some (some "A2"))).1.store =
      tokenStore.getRefresh [("access", "A1"), ("refresh", "R1")] :=
  ⟨(refresh_preserves_refresh_token
      ⟨[("access", "A1"), ("refresh", "R1")], true, true,
        [⟨1, [], true⟩, ⟨2, [], false⟩, ⟨3, [], false⟩], [1, 2, 3]⟩
      "A2" rfl (by decide)).1,
   (refresh_preserves_refresh_token
      ⟨[("access", "A1"), ("refresh", "R1")], true, true,
        [⟨1, [], true⟩, ⟨2, [], false⟩, ⟨3, [], false⟩], [1, 2, 3]⟩
      "A2" rfl (by decide)).2.1⟩

/-- Claim C8: when the refresh resolves successfully, the queued pending
requests are notified in exactly the order in which they were enqueued: the
action list is the subscriber list mapped in order, and the i-th emitted
notification belongs to the i-th enqueued subscriber. -/
theorem subscriber_notification_order (g : GState) (a : String)
    (hin : g.isRefreshing = true) (ha : a ≠ "") :
    (handleRefreshResult g (some (some a))).2 =
      g.subscribers.map (fun c => Action.replay (replayConfig c a)) ∧
    ∀ i c, g.subscribers.get? i = some c →
      ((handleRefreshResult g (some (some a))).2).get? i =
        some (Action.replay (replayConfig c a)) := by
  have h := handleRefreshResult_ok g a hin ha
  constructor
  · rw [h]
  · intro i c hci
    rw [h]
    rw [List.get?_eq_getElem?] at hci ⊢
    simp [List.getElem?_map, hci]

/-- Witness for C8: three queued requests are notified first, second, third
in enqueue order. -/
theorem subscriber_notification_order_witness :
    ((handleRefreshResult
        ⟨[("refresh", "R1")], true, true,
          [⟨1, [], true⟩, ⟨2, [], false⟩, ⟨3, [], false⟩], [1, 2, 3]⟩
        (some (some "A2"))).2).get? 1 =
      some (Action.replay (replayConfig ⟨2, [], false⟩ "A2")) :=
  (subscriber_notification_order
      ⟨[("refresh", "R1")], true, true,
        [⟨1, [], true⟩, ⟨2, [], false⟩, ⟨3, [], false⟩], [1, 2, 3]⟩
      "A2" rfl (by decide)).2 1 ⟨2, [], false⟩ rfl

/-- Claim C9: a refresh response that resolves without an `access` field is
treated as a refresh failure — both tokens are cleared, no token is stored,
the attached callers are rejected, and nothing is replayed. -/
theorem missing_access_treated_as_failure (g : GState)
    (hin : g.isRefreshing = true) :
    handleRefreshResult g (some none) =
      ({ g with store := tokenStore.clear g.store,
                isRefreshing := false, refreshActive := false, attached := [] },
       g.attached.map Action.rejectRefreshErr) ∧
    tokenStore.getAccess (handleRefreshResult g (some none)).1.store = none ∧
    tokenStore.getRefresh (handleRefreshResult g (some none)).1.store = none ∧
    ∀ x ∈ (handleRefreshResult g (some none)).2, x.isReplay = false := by
  have h := handleRefreshResult_fail g (some none) hin (Or.inr (Or.inl rfl))
  refine ⟨h, ?_, ?_, ?_⟩
  · rw [h]
    exact getAccess_clear g.store
  · rw [h]
    exact getRefresh_clear g.store
  · rw [h]
    intro x hx
    rw [List.mem_map] at hx
    obtain ⟨i, _, rfl⟩ := hx
    rfl

/-- Witness for C9: a 2xx refresh response with no `access` field rejects the
queued caller and clears the store. -/
theorem missing_access_treated_as_failure_witness :
    tokenStore.getAccess
      (handleRefreshResult
        ⟨[("access", "A1"), ("refresh", "R1")], true, true, [⟨1, [], true⟩], [1]⟩
        (some none)).1.store = none ∧
    tokenStore.getRefresh
      (handleRefreshResult
        ⟨[("access", "A1"), ("refresh", "R1")], true, true, [⟨1, [], true⟩], [1]⟩
        (some none)).1.store = none :=
  ⟨(missing_access_treated_as_failure
      ⟨[("access", "A1"), ("refresh", "R1")], true, true, [⟨1, [], true⟩], [1]⟩
      rfl).2.1,
   (missing_access_treated_as_failure
      ⟨[("access", "A1"), ("refresh", "R1")], true, true, [⟨1, [], true⟩], [1]⟩
      rfl).2.2.1⟩

/-- Counterexample to C2 as stated: after a failed refresh cycle (one request
queued, then the refresh call rejects) the subscriber queue is NOT cleared —
the queued callback survives into a later cycle. -/
theorem refresh_failure_queue_not_cleared :
    (run ⟨[("access", "A1"), ("refresh", "R1")], false, false, [], []⟩
        [Event.respErr ⟨1, [], false⟩ (some 401),
         Event.refreshResult none]).1.subscribers ≠ [] := by
  decide

/-- Claim C2 (amended): if the refresh call fails, both tokens are removed
from the token store, every caller attached to the failed cycle is rejected
with the refresh error, and the cycle returns to idle — but the subscriber
queue is NOT cleared: the queued callbacks survive unchanged into a later
cycle. -/
theorem refresh_failure_fanout (g : GState) (hin : g.isRefreshing = true) :
    handleRefreshResult g none =
      ({ g with store := tokenStore.clear g.store,
                isRefreshing := false, refreshActive := false, attached := [] },
       g.attached.map Action.rejectRefreshErr) ∧
    tokenStore.getAccess (handleRefreshResult g none).1.store = none ∧
    tokenStore.getRefresh (handleRefreshResult g none).1.store = none ∧
    (handleRefreshResult g none).1.isRefreshing = false ∧
    (handleRefreshResult g none).1.subscribers = g.subscribers := by
  have h := handleRefreshResult_fail g none hin (Or.inl rfl)
  refine ⟨h, ?_, ?_, ?_, ?_⟩
  · rw [h]
    exact getAccess_clear g.store
  · rw [h]
    exact getRefresh_clear g.store
  · rw [h]
  · rw [h]

/-- Witness for the amended C2: a failed cycle with two queued requests
rejects both attached callers, clears the store, and leaves both callbacks
in the queue. -/
theorem refresh_failure_fanout_witness :
    (handleRefreshResult
        ⟨[("access", "A1"), ("refresh", "R1")], true, true,
          [⟨1, [], true⟩, ⟨2, [], false⟩], [1, 2]⟩ none).2 =
      [1, 2].map Action.rejectRefreshErr ∧
    tokenStore.getAccess
      (handleRefreshResult
        ⟨[("access", "A1"), ("refresh", "R1")], true, true,
          [⟨1, [], true⟩, ⟨2, [], false⟩], [1, 2]⟩ none).1.store = none ∧
    (handleRefreshResult
        ⟨[("access", "A1"), ("refresh", "R1")], true, true,
          [⟨1, [], true⟩, ⟨2, [], false⟩], [1, 2]⟩ none).1.subscribers =
      [⟨1, [], true⟩, ⟨2, [], false⟩] :=
  ⟨congrArg Prod.snd
      (refresh_failure_fanout
        ⟨[("access", "A1"), ("refresh", "R1")], true, true,
          [⟨1, [], true⟩, ⟨2, [], false⟩], [1, 2]⟩ rfl).1,
   (refresh_failure_fanout
      ⟨[("access", "A1"), ("refresh", "R1")], true, true,
        [⟨1, [], true⟩, ⟨2, [], false⟩], [1, 2]⟩ rfl).2.1,
   (refresh_failure_fanout
      ⟨[("access", "A1"), ("refresh", "R1")], true, true,
        [⟨1, [], true⟩, ⟨2, [], false⟩], [1, 2]⟩ rfl).2.2.2.2⟩

/-- Counterexample to C3 as stated: request 2 is queued behind request 1's
refresh cycle and replayed with the new token `A2` (first conjunct: that
exact replay is among the emitted actions); when that replay fails with 401
again, it starts a second refresh cycle — the four-event trace issues two
refresh calls, not one. -/
theorem queued_request_second_refresh :
    Action.replay (replayConfig ⟨2, [], false⟩ "A2") ∈
      (run ⟨[("access", "A1"), ("refresh", "R1")], false, false, [], []⟩
        [Event.respErr ⟨1, [], false⟩ (some 401),
         Event.respErr ⟨2, [], false⟩ (some 401),
         Event.refreshResult (some (some "A2"))]).2 ∧
    ((run ⟨[("access", "A1"), ("refresh", "R1")], false, false, [], []⟩
        [Event.respErr ⟨1, [], false⟩ (some 401),
         Event.respErr ⟨2, [], false⟩ (some 401),
         Event.refreshResult (some (some "A2")),
         Event.respErr (replayConfig ⟨2, [], false⟩ "A2") (some 401)]).2).countP
      Action.isRefreshCall = 2 := by
  constructor <;> decide

/-- Claim C3 (amended): only the request that initiates a refresh cycle is
marked retried — a 401 on a request already marked retried is propagated
unchanged with no refresh call, no queuing and no state change, and the
initiator is enqueued already carrying the mark.  Requests queued behind an
in-flight refresh are not marked, so a second 401 on their replay starts a
new refresh cycle rather than propagating. -/
theorem retry_marked_once (g : GState) (cfg : Config) :
    (cfg.isRetry = true →
      handleRespErr g cfg (some 401) = (g, [Action.rejectOriginal cfg.id])) ∧
    (cfg.isRetry = false → g.isRefreshing = false →
      ∀ r, tokenStore.getRefresh g.store = some r → r ≠ "" →
        (handleRespErr g cfg (some 401)).1.subscribers =
          g.subscribers ++ [{ cfg with isRetry := true }]) := by
  constructor
  · intro h
    simp [handleRespErr, h]
  · intro hc hidle r hr hrne
    rw [handleRespErr_idle g cfg r hidle hc hr hrne]

/-- Witness for the amended C3: a marked request's second 401 propagates
without touching the state, and the initiator of a refresh is queued already
marked. -/
theorem retry_marked_once_witness :
    handleRespErr ⟨[("refresh", "R1")], false, false, [], []⟩
        ⟨5, [], true⟩ (some 401) =
      (⟨[("refresh", "R1")], false, false, [], []⟩, [Action.rejectOriginal 5]) ∧
    (handleRespErr ⟨[("refresh", "R1")], false, false, [], []⟩
        ⟨6, [], false⟩ (some 401)).1.subscribers =
      [] ++ [⟨6, [], true⟩] :=
  ⟨(retry_marked_once ⟨[("refresh", "R1")], false, false, [], []⟩ ⟨5, [], true⟩).1 rfl,
   (retry_marked_once ⟨[("refresh", "R1")], false, false, [], []⟩ ⟨6, [], false⟩).2
      rfl rfl "R1" (by decide) (by decide)⟩

end BuzzCart
